import Mathlib

/-!
Shallow embedding of the upload-and-poll core of `src/frontend/src/App.js`
(the Express backend portion): storage-key derivation, the Storage Gateway
helpers (`checkResultExists`, `getResultContent`), the poll loop
(`pollForResult`), and the `/upload` request handler together with the
multer validation stage and the error-mapping catch block.

External effects (S3 responses, `JSON.parse`, timers) are modelled as an
explicit environment `Env`; the handler is instrumented with counters for
put / existence-check / get / sleep operations and for the creation and
destruction of per-request custom S3 clients.
-/

namespace CloudVision

/-! ## Storage-key derivation (App.js lines 855-860)

`originalName.lastIndexOf('.')` and `originalName.substring(0, i)` are
modelled on `List Char`, matching JavaScript semantics: `lastIndexOf`
returns `-1` when the character is absent, and `substring(0, e)` clamps a
negative end index to `0`. -/

/-- JavaScript `s.lastIndexOf(c)`: index of the last occurrence of `c`,
`-1` if absent. -/
def jsLastIndexOf (c : Char) : List Char → Int
  | [] => -1
  | x :: xs =>
    let r := jsLastIndexOf c xs
    if 0 ≤ r then r + 1
    else if x = c then 0 else -1

/-- JavaScript `s.substring(0, e)`: a negative `e` is clamped to `0`,
an `e` past the end is clamped to the length (via `List.take`). -/
def jsSubstringTo (s : List Char) (e : Int) : List Char :=
  s.take e.toNat

/-- `nameWithoutExt = originalName.substring(0, originalName.lastIndexOf('.'))`
(App.js line 859). -/
def nameWithoutExtL (name : List Char) : List Char :=
  jsSubstringTo name (jsLastIndexOf '.' name)

/-- `resultKey = nameWithoutExt + ".result.json"` (App.js line 860). -/
def resultKeyL (name : List Char) : List Char :=
  nameWithoutExtL name ++ (".result.json").data

/-- String-level wrapper for the result-key derivation. -/
def resultKey (name : String) : String :=
  String.mk (resultKeyL name.data)

/-- `s3Key = originalName` — the input object key is the original filename
unmodified (App.js line 856). -/
def s3Key (name : String) : String := name

theorem jsLastIndexOf_of_not_mem {c : Char} {l : List Char} (h : c ∉ l) :
    jsLastIndexOf c l = -1 := by
  induction l with
  | nil => rfl
  | cons x xs ih =>
    have hx : x ≠ c := fun hxc => h (hxc ▸ List.mem_cons_self x xs)
    have hxs : c ∉ xs := fun hm => h (List.mem_cons_of_mem x hm)
    simp [jsLastIndexOf, ih hxs, hx]

theorem jsLastIndexOf_append_last {c : Char} {ext : List Char} (h : c ∉ ext) :
    ∀ stem : List Char, jsLastIndexOf c (stem ++ c :: ext) = stem.length := by
  intro stem
  induction stem with
  | nil =>
    simp [jsLastIndexOf, jsLastIndexOf_of_not_mem h]
  | cons x xs ih =>
    have hnn : (0 : Int) ≤ jsLastIndexOf c (xs ++ c :: ext) := by
      rw [ih]; exact Int.ofNat_nonneg _
    simp [jsLastIndexOf, ih, hnn]

theorem nameWithoutExtL_append {ext : List Char} (h : '.' ∉ ext)
    (stem : List Char) : nameWithoutExtL (stem ++ '.' :: ext) = stem := by
  unfold nameWithoutExtL jsSubstringTo
  rw [jsLastIndexOf_append_last h stem]
  simp [List.take_left]

/-! ## JSON values and JavaScript errors

`JSON.parse` is a JavaScript builtin external to the repository; the model
takes the parser as an explicit environment function returning either a
parsed value or the parse-failure reason (the `SyntaxError` message). -/

/-- A JSON value (the payload of a result object is opaque to the core). -/
inductive Json where
  | null : Json
  | jbool : Bool → Json
  | jnum : Int → Json
  | jstr : String → Json
  | jarr : List Json → Json
  | jobj : List (String × Json) → Json

/-- A JavaScript error as the handler observes it: `name`, `message`, and
the optional `$metadata.httpStatusCode` carried by AWS SDK errors. -/
structure JsError where
  name : String
  message : String
  httpStatusCode : Option Nat
deriving DecidableEq

/-- The error thrown by `pollForResult` on exhaustion (App.js line 820). -/
def timeoutError : JsError :=
  ⟨"Error", "Timeout: Result file not found within the expected time.", none⟩

/-- The `SyntaxError` thrown by `JSON.parse` on malformed input, carrying
the parse reason as its message. -/
def syntaxError (reason : String) : JsError :=
  ⟨"SyntaxError", reason, none⟩

/-- Outcome of a `HeadObjectCommand` sent to the store: success, or an
error object. -/
inductive HeadResponse where
  | ok : HeadResponse
  | errResp : JsError → HeadResponse
deriving DecidableEq

/-! ## Storage Gateway helpers (App.js lines 776-800) -/

/-- `checkResultExists` (App.js lines 776-789): `HeadObject` success gives
`true`; an error named `NotFound` or with HTTP status 404 gives `false`;
any other error is rethrown. -/
def checkResultExists (resp : HeadResponse) : Except JsError Bool :=
  match resp with
  | HeadResponse.ok => Except.ok true
  | HeadResponse.errResp e =>
    if e.name = "NotFound" ∨ e.httpStatusCode = some 404 then Except.ok false
    else Except.error e

/-- `getResultContent` (App.js lines 792-800): `GetObject` failure
propagates; on success the body string is fed to `JSON.parse`, whose
failure propagates as a `SyntaxError` carrying the parse reason. -/
def getResultContent (parse : String → Except String Json)
    (resp : Except JsError String) : Except JsError Json :=
  match resp with
  | Except.error e => Except.error e
  | Except.ok body =>
    match parse body with
    | Except.ok j => Except.ok j
    | Except.error reason => Except.error (syntaxError reason)

/-! ## Environment: the store and `JSON.parse` as oracles

`head i` / `get i` give the store's response to the `HeadObjectCommand` /
`GetObjectCommand` issued on poll attempt `i` (attempts are numbered from
0); `putResult` is the store's response to the single `PutObjectCommand`. -/

structure Env where
  putResult : Except JsError Unit
  head : Nat → HeadResponse
  get : Nat → Except JsError String
  parse : String → Except String Json

/-- Instrumentation of one run of the poll loop: how many existence
checks, gets and `setTimeout` suspensions were performed, and the value
returned or error thrown. -/
structure PollTrace where
  checks : Nat
  gets : Nat
  sleeps : Nat
  outcome : Except JsError Json

/-- The body of `pollForResult`'s `for` loop (App.js lines 813-819),
recursing on the remaining attempts; `attempt` is the absolute index of
the current attempt. Each iteration checks existence; on `true` it gets
and returns; on `false` it sleeps one interval (including on the final
iteration) and continues; an error from the check or the get propagates.
Zero remaining attempts throw the timeout error (App.js line 820). -/
def pollAux (env : Env) : Nat → Nat → PollTrace
  | _, 0 => ⟨0, 0, 0, Except.error timeoutError⟩
  | attempt, r + 1 =>
    match checkResultExists (env.head attempt) with
    | Except.error e => ⟨1, 0, 0, Except.error e⟩
    | Except.ok true => ⟨1, 1, 0, getResultContent env.parse (env.get attempt)⟩
    | Except.ok false =>
      let t := pollAux env (attempt + 1) r
      ⟨t.checks + 1, t.gets, t.sleeps + 1, t.outcome⟩

/-- `pollForResult` (App.js lines 812-821) with its attempt ceiling made
explicit; the call site uses the default `maxAttempts = 15`. -/
def pollForResult (env : Env) (maxAttempts : Nat) : PollTrace :=
  pollAux env 0 maxAttempts

/-! ## Multer validation stage (App.js lines 738-751) -/

/-- The mime types multer's `fileFilter` accepts (App.js line 744). -/
def allowedTypes : List String := ["image/jpeg", "image/jpg", "image/png"]

/-- The multer `fileSize` limit: 10 MiB (App.js line 741). -/
def maxFileSize : Nat := 10 * 1024 * 1024

/-- Multer's `fileFilter` predicate (App.js lines 743-750). -/
def validMime (m : String) : Bool := allowedTypes.contains m

/-! ## The `/upload` handler (App.js lines 824-915) -/

/-- One multipart `/upload` request as the handler sees it. Form-data
fields that JavaScript destructures as possibly `undefined` are modelled
as strings with `""` standing for an absent or empty field — both are
falsy under the `!accessKeyId || ...` check on App.js line 839. -/
structure UploadRequest where
  hasFile : Bool
  mimetype : String
  size : Nat
  originalname : String
  useCustomCredentials : String
  accessKeyId : String
  secretAccessKey : String
  region : String
  bucketName : String

/-- The `!accessKeyId || !secretAccessKey || !region || !customBucket`
check of App.js line 839. -/
def missingCustomField (r : UploadRequest) : Bool :=
  r.accessKeyId == "" || r.secretAccessKey == "" ||
    r.region == "" || r.bucketName == ""

/-- An HTTP response produced by the handler: status code, the `error`
field of the JSON body (if any), and the `result` field (if any). -/
structure HttpResponse where
  status : Nat
  error : Option String
  result : Option Json

/-- `sub` occurs at the start of `s` (on character lists). -/
def leadsWith : List Char → List Char → Bool
  | [], _ => true
  | _ :: _, [] => false
  | x :: xs, y :: ys => x == y && leadsWith xs ys

/-- `sub` occurs as a contiguous run somewhere in `s`. -/
def containsSeq (sub : List Char) : List Char → Bool
  | [] => leadsWith sub []
  | y :: ys => leadsWith sub (y :: ys) || containsSeq sub ys

/-- JavaScript `s.includes(sub)`. -/
def strIncludes (s sub : String) : Bool := containsSeq sub.data s.data

/-- The catch block of the `/upload` handler (App.js lines 890-913):
maps a thrown error to the HTTP response, by message substring and by
error name, falling through to a generic 500. -/
def mapErrorResponse (e : JsError) : HttpResponse :=
  if strIncludes e.message "Timeout" then
    ⟨504, some e.message, none⟩
  else if strIncludes e.message "Invalid file type" then
    ⟨400, some e.message, none⟩
  else if e.name == "CredentialsProviderError" || strIncludes e.message "credential" then
    ⟨401, some "Invalid AWS credentials provided.", none⟩
  else if e.name == "NoSuchBucket" then
    ⟨400, some "The specified S3 bucket does not exist.", none⟩
  else if e.name == "AccessDenied" then
    ⟨403, some "Access denied. Check your AWS credentials and bucket permissions.", none⟩
  else
    ⟨500, some "An error occurred while processing the image.", none⟩

/-- Instrumentation of one full `/upload` request: counts of
`PutObjectCommand`s, existence checks, `GetObjectCommand`s and
suspensions, of custom S3 clients constructed (`createCustomS3Client`)
and destroyed (`s3Client.destroy()`), and the HTTP response sent. -/
structure RunTrace where
  puts : Nat
  checks : Nat
  gets : Nat
  sleeps : Nat
  customCreated : Nat
  destroys : Nat
  response : HttpResponse

/-- The full `/upload` pipeline (App.js lines 738-751 and 824-937):
multer's `fileFilter` and `fileSize` limit (rejections answered by the
error middleware at lines 923-937), the missing-file check, the custom-
credential resolution, the put, the poll loop (called with the default
ceiling of 15), the success response, and the catch block. `destroy` is
invoked only where line 881 runs — after a successful poll, before the
success response. -/
def uploadHandler (env : Env) (req : UploadRequest) : RunTrace :=
  if req.hasFile = false then
    ⟨0, 0, 0, 0, 0, 0, ⟨400, some "No image file provided.", none⟩⟩
  else if validMime req.mimetype = false then
    ⟨0, 0, 0, 0, 0, 0,
      ⟨400, some "Invalid file type. Only JPEG and PNG images are allowed.", none⟩⟩
  else if maxFileSize < req.size then
    ⟨0, 0, 0, 0, 0, 0, ⟨400, some "File size exceeds the 10MB limit.", none⟩⟩
  else
    let useCustom := req.useCustomCredentials == "true"
    if useCustom && missingCustomField req then
      ⟨0, 0, 0, 0, 0, 0,
        ⟨400, some "Custom credentials mode requires: accessKeyId, secretAccessKey, region, and bucketName", none⟩⟩
    else
      let created := if useCustom then 1 else 0
      match env.putResult with
      | Except.error e => ⟨1, 0, 0, 0, created, 0, mapErrorResponse e⟩
      | Except.ok _ =>
        let t := pollForResult env 15
        match t.outcome with
        | Except.error e =>
          ⟨1, t.checks, t.gets, t.sleeps, created, 0, mapErrorResponse e⟩
        | Except.ok j =>
          ⟨1, t.checks, t.gets, t.sleeps, created, created,
            ⟨200, none, some j⟩⟩

/-! ## Poll-loop lemmas -/

theorem pollAux_all_false (env : Env) :
    ∀ remaining attempt : Nat,
      (∀ i, i < remaining → checkResultExists (env.head (attempt + i)) = Except.ok false) →
      pollAux env attempt remaining =
        ⟨remaining, 0, remaining, Except.error timeoutError⟩ := by
  intro remaining
  induction remaining with
  | zero => intro attempt _; rfl
  | succ r ih =>
    intro attempt h
    have h0 : checkResultExists (env.head attempt) = Except.ok false := by
      have := h 0 (Nat.succ_pos r); simpa using this
    have hrec : pollAux env (attempt + 1) r =
        ⟨r, 0, r, Except.error timeoutError⟩ := by
      apply ih
      intro i hi
      have := h (i + 1) (Nat.succ_lt_succ hi)
      simpa [Nat.add_comm, Nat.add_assoc, Nat.add_left_comm] using this
    simp [pollAux, h0, hrec]

theorem pollAux_false_then_true (env : Env) :
    ∀ remaining attempt k : Nat, k < remaining →
      (∀ i, i < k → checkResultExists (env.head (attempt + i)) = Except.ok false) →
      checkResultExists (env.head (attempt + k)) = Except.ok true →
      pollAux env attempt remaining =
        ⟨k + 1, 1, k, getResultContent env.parse (env.get (attempt + k))⟩ := by
  intro remaining
  induction remaining with
  | zero => intro attempt k hk; omega
  | succ r ih =>
    intro attempt k hk hfalse htrue
    match k with
    | 0 =>
      have h0 : checkResultExists (env.head attempt) = Except.ok true := by
        simpa using htrue
      simp [pollAux, h0]
    | k' + 1 =>
      have h0 : checkResultExists (env.head attempt) = Except.ok false := by
        have := hfalse 0 (Nat.succ_pos k'); simpa using this
      have hrec : pollAux env (attempt + 1) r =
          ⟨k' + 1, 1, k', getResultContent env.parse (env.get (attempt + 1 + k'))⟩ := by
        apply ih (attempt + 1) k' (by omega)
        · intro i hi
          have := hfalse (i + 1) (Nat.succ_lt_succ hi)
          simpa [Nat.add_comm, Nat.add_assoc, Nat.add_left_comm] using this
        · have := htrue
          simpa [Nat.add_comm, Nat.add_assoc, Nat.add_left_comm] using this
      have harg : attempt + 1 + k' = attempt + (k' + 1) := by omega
      simp [pollAux, h0, hrec, harg]

theorem pollAux_check_error (env : Env) (e : JsError) :
    ∀ remaining attempt k : Nat, k < remaining →
      (∀ i, i < k → checkResultExists (env.head (attempt + i)) = Except.ok false) →
      checkResultExists (env.head (attempt + k)) = Except.error e →
      pollAux env attempt remaining = ⟨k + 1, 0, k, Except.error e⟩ := by
  intro remaining
  induction remaining with
  | zero => intro attempt k hk; omega
  | succ r ih =>
    intro attempt k hk hfalse herr
    match k with
    | 0 =>
      have h0 : checkResultExists (env.head attempt) = Except.error e := by
        simpa using herr
      simp [pollAux, h0]
    | k' + 1 =>
      have h0 : checkResultExists (env.head attempt) = Except.ok false := by
        have := hfalse 0 (Nat.succ_pos k'); simpa using this
      have hrec : pollAux env (attempt + 1) r = ⟨k' + 1, 0, k', Except.error e⟩ := by
        apply ih (attempt + 1) k' (by omega)
        · intro i hi
          have := hfalse (i + 1) (Nat.succ_lt_succ hi)
          simpa [Nat.add_comm, Nat.add_assoc, Nat.add_left_comm] using this
        · have := herr
          simpa [Nat.add_comm, Nat.add_assoc, Nat.add_left_comm] using this
      simp [pollAux, h0, hrec]

theorem mapErrorResponse_status_ne_200 (e : JsError) :
    (mapErrorResponse e).status ≠ 200 := by
  unfold mapErrorResponse
  split <;> [skip; split] <;> [simp; skip; split] <;>
    [skip; simp; skip] <;> [simp; split] <;> [simp; split] <;> simp

/-! ## Concrete fixtures for witnesses and counterexamples -/

/-- The AWS SDK error shape for a missing object (`HeadObject` 404). -/
def notFoundErr : JsError := ⟨"NotFound", "NotFound", some 404⟩

/-- An `AccessDenied` error as the AWS SDK surfaces it. -/
def accessDeniedErr : JsError := ⟨"AccessDenied", "Access Denied", some 403⟩

/-- A generic server-side storage error, not one of the names the catch
block singles out. -/
def internalErr : JsError :=
  ⟨"InternalError", "We encountered an internal error. Please try again.", some 500⟩

/-- An environment whose store never holds the result object: every
existence check sees a 404. -/
def alwaysMissingEnv : Env :=
  ⟨Except.ok (), fun _ => HeadResponse.errResp notFoundErr,
    fun _ => Except.ok "[]", fun _ => Except.ok (Json.jarr [])⟩

/-- An environment where the result object appears just before the
`k`-th existence check (checks `0..k-1` see a 404, check `k` succeeds)
and the retrieved body parses to the empty JSON array. -/
def foundAfter (k : Nat) : Env :=
  ⟨Except.ok (), fun i => if i < k then HeadResponse.errResp notFoundErr else HeadResponse.ok,
    fun _ => Except.ok "[]", fun _ => Except.ok (Json.jarr [])⟩

/-- A valid default-scope request: 900 KiB PNG named `face.png`. -/
def defaultReq : UploadRequest :=
  ⟨true, "image/png", 900 * 1024, "face.png", "", "", "", "", ""⟩

/-- A valid Custom-scope request with all four credential fields present. -/
def customReq : UploadRequest :=
  ⟨true, "image/png", 900 * 1024, "face.png", "true",
    "AKIAEXAMPLE", "secret", "ap-south-1", "my-bucket"⟩

/-! ## Claim theorems -/

/-- Claim C2: the input storage key is the original filename unmodified,
and for any filename with an extension (written `stem ++ "." ++ ext` with
no dot in `ext`, so `ext` is exactly the final extension) the result key
is the stem followed by the literal `.result.json`; in particular
`photo.jpg ↦ photo.result.json` and `my.photo.jpeg ↦ my.photo.result.json`. -/
theorem input_and_result_key_derivation (stem ext : List Char) (hext : '.' ∉ ext) :
    (∀ name : String, s3Key name = name) ∧
    resultKeyL (stem ++ '.' :: ext) = stem ++ (".result.json").data ∧
    resultKey "photo.jpg" = "photo.result.json" ∧
    resultKey "my.photo.jpeg" = "my.photo.result.json" := by
  refine ⟨fun _ => rfl, ?_, by decide, by decide⟩
  unfold resultKeyL
  rw [nameWithoutExtL_append hext stem]

/-- Witness for C2 at `stem = "photo"`, `ext = "jpg"`. -/
theorem input_and_result_key_derivation_witness :
    resultKeyL ((String.data "photo") ++ '.' :: (String.data "jpg")) =
      (String.data "photo") ++ (".result.json").data :=
  (input_and_result_key_derivation (String.data "photo") (String.data "jpg")
    (by decide)).2.1

/-- Claim C10: a filename containing no dot has `lastIndexOf('.') = -1`,
`substring(0, -1)` clamps to the empty string, and the derived result key
is the literal `.result.json` — shared by every extensionless upload. -/
theorem extensionless_result_key (name : String) (h : '.' ∉ name.data) :
    resultKey name = ".result.json" := by
  unfold resultKey resultKeyL nameWithoutExtL jsSubstringTo
  rw [jsLastIndexOf_of_not_mem h]
  rfl

/-- Witness for C10 at `name = "README"`. -/
theorem extensionless_result_key_witness : resultKey "README" = ".result.json" :=
  extensionless_result_key "README" (by decide)

/-- Claim C3: when every existence check reports false, the poll loop
returns the Timeout outcome after exactly the configured `maxAttempts`
existence checks (the call site configures 15), and the catch block maps
that error to the 504 Timeout response. -/
theorem timeout_after_max_attempts (env : Env) (n : Nat)
    (h : ∀ i, i < n → checkResultExists (env.head i) = Except.ok false) :
    (pollForResult env n).checks = n ∧
    (pollForResult env n).outcome = Except.error timeoutError ∧
    mapErrorResponse timeoutError = ⟨504, some timeoutError.message, none⟩ := by
  have hall := pollAux_all_false env n 0 (by intro i hi; simpa using h i hi)
  unfold pollForResult
  rw [hall]
  exact ⟨rfl, rfl, rfl⟩

/-- Witness for C3: the always-missing store with the default ceiling 15. -/
theorem timeout_after_max_attempts_witness :
    (pollForResult alwaysMissingEnv 15).checks = 15 ∧
    (pollForResult alwaysMissingEnv 15).outcome = Except.error timeoutError ∧
    mapErrorResponse timeoutError = ⟨504, some timeoutError.message, none⟩ :=
  timeout_after_max_attempts alwaysMissingEnv 15 (fun _ _ => rfl)

/-- Counterexample to C4: the loop body suspends after every false check,
including the final one, so the always-false run with the default ceiling
15 performs 15 suspensions — not `15 - 1 = 14` — and with a ceiling of 1
the single failed check is still followed by one suspension, not zero. -/
theorem sleeps_equal_max_attempts_cex :
    (pollForResult alwaysMissingEnv 15).sleeps = 15 ∧
    (pollForResult alwaysMissingEnv 15).sleeps ≠ 15 - 1 ∧
    (pollForResult alwaysMissingEnv 1).sleeps = 1 := by
  exact ⟨by decide, by decide, by decide⟩

/-- Claim C4 as amended: when every existence check reports false, the
loop performs exactly `maxAttempts` inter-attempt suspensions of one
interval each (one after every failed check, the final one included), so
the total elapsed suspension is `maxAttempts × interval`; from the last
attempt a false check is followed by one more suspension before the loop
exits with Timeout. -/
theorem sleeps_on_exhaustion (env : Env) (n : Nat)
    (h : ∀ i, i < n → checkResultExists (env.head i) = Except.ok false) :
    (pollForResult env n).sleeps = n := by
  have hall := pollAux_all_false env n 0 (by intro i hi; simpa using h i hi)
  unfold pollForResult
  rw [hall]

/-- Witness for amended C4: the always-missing store with ceiling 15. -/
theorem sleeps_on_exhaustion_witness :
    (pollForResult alwaysMissingEnv 15).sleeps = 15 :=
  sleeps_on_exhaustion alwaysMissingEnv 15 (fun _ _ => rfl)

/-- Claim C5: if the existence check reports false for the first `k`
calls and true on call `k+1` (index `k`), the poll loop performs exactly
`k+1` existence checks and exactly one get, and returns the parsed JSON
payload retrieved by that get. -/
theorem success_after_k_plus_one_checks (env : Env) (n k : Nat) (j : Json)
    (hk : k < n)
    (hfalse : ∀ i, i < k → checkResultExists (env.head i) = Except.ok false)
    (htrue : checkResultExists (env.head k) = Except.ok true)
    (hget : getResultContent env.parse (env.get k) = Except.ok j) :
    (pollForResult env n).checks = k + 1 ∧
    (pollForResult env n).gets = 1 ∧
    (pollForResult env n).outcome = Except.ok j := by
  have hrun := pollAux_false_then_true env n 0 k hk
    (by intro i hi; simpa using hfalse i hi) (by simpa using htrue)
  unfold pollForResult
  rw [hrun]
  refine ⟨rfl, rfl, ?_⟩
  simpa using hget

/-- Witness for C5: store misses for 3 checks, then check 4 succeeds and
the get's body parses to the empty JSON array. -/
theorem success_after_k_plus_one_checks_witness :
    (pollForResult (foundAfter 3) 15).checks = 4 ∧
    (pollForResult (foundAfter 3) 15).gets = 1 ∧
    (pollForResult (foundAfter 3) 15).outcome = Except.ok (Json.jarr []) :=
  success_after_k_plus_one_checks (foundAfter 3) 15 3 (Json.jarr []) (by decide)
    (fun i hi => by simp [foundAfter, checkResultExists, notFoundErr, hi])
    (by simp [foundAfter, checkResultExists])
    rfl

/-- An environment whose store rejects the `PutObjectCommand` with
`AccessDenied`. -/
def putFailEnv : Env :=
  ⟨Except.error accessDeniedErr, fun _ => HeadResponse.ok,
    fun _ => Except.ok "[]", fun _ => Except.ok (Json.jarr [])⟩

/-- Counterexample to C1: a Custom-scope submission (all four credential
fields present, so a per-request client is constructed) that ends in the
Timeout outcome never invokes `destroy` — the catch block has no release
call — and the same holds on a put failure. -/
theorem custom_client_not_destroyed_cex :
    (uploadHandler alwaysMissingEnv customReq).customCreated = 1 ∧
    (uploadHandler alwaysMissingEnv customReq).destroys = 0 ∧
    (uploadHandler putFailEnv customReq).customCreated = 1 ∧
    (uploadHandler putFailEnv customReq).destroys = 0 := by
  exact ⟨by decide, by decide, by decide, by decide⟩

/-- Claim C1 as amended: for a Custom-scope submission the per-request
client is constructed exactly once, and its release routine (`destroy`)
is invoked exactly once on the success exit path but never on the timeout
or error exit paths (the client leaks there). -/
theorem custom_client_destroyed_only_on_success (env : Env) (req : UploadRequest)
    (hfile : req.hasFile = true)
    (hmime : validMime req.mimetype = true)
    (hsize : req.size ≤ maxFileSize)
    (hcustom : req.useCustomCredentials = "true")
    (hfields : missingCustomField req = false) :
    (uploadHandler env req).customCreated = 1 ∧
    ((uploadHandler env req).response.status = 200 →
      (uploadHandler env req).destroys = 1) ∧
    ((uploadHandler env req).response.status ≠ 200 →
      (uploadHandler env req).destroys = 0) := by
  have hns : ¬ (maxFileSize < req.size) := Nat.not_lt.mpr hsize
  unfold uploadHandler
  rw [hfile]
  simp only [hmime, hns, hcustom, hfields, beq_self_eq_true, Bool.true_and,
    Bool.and_false, if_true, if_false, ite_false, ite_true]
  simp only [Bool.false_eq_true, if_false, ite_false]
  cases hput : env.putResult with
  | error e =>
    refine ⟨rfl, fun h => absurd h (mapErrorResponse_status_ne_200 e), fun _ => rfl⟩
  | ok u =>
    cases houtcome : (pollForResult env 15).outcome with
    | error e =>
      refine ⟨rfl, fun h => absurd h (mapErrorResponse_status_ne_200 e), fun _ => rfl⟩
    | ok j =>
      exact ⟨rfl, fun _ => rfl, fun h => absurd rfl h⟩

/-- Witness for amended C1: a Custom-scope run whose store holds the
result at the first check (success path). -/
theorem custom_client_destroyed_only_on_success_witness :
    (uploadHandler (foundAfter 0) customReq).customCreated = 1 ∧
    ((uploadHandler (foundAfter 0) customReq).response.status = 200 →
      (uploadHandler (foundAfter 0) customReq).destroys = 1) ∧
    ((uploadHandler (foundAfter 0) customReq).response.status ≠ 200 →
      (uploadHandler (foundAfter 0) customReq).destroys = 0) :=
  custom_client_destroyed_only_on_success (foundAfter 0) customReq rfl
    (by decide) (by decide) rfl (by decide)

/-- Claim C6: a request whose mime type fails multer's filter or whose
size exceeds the 10 MiB limit is answered 400 (ValidationError) by the
error middleware, and no storage operation — no put, no existence check,
no get — is performed. -/
theorem validation_rejects_before_put (env : Env) (req : UploadRequest)
    (hfile : req.hasFile = true)
    (h : validMime req.mimetype = false ∨ maxFileSize < req.size) :
    (uploadHandler env req).response.status = 400 ∧
    (uploadHandler env req).puts = 0 ∧
    (uploadHandler env req).checks = 0 ∧
    (uploadHandler env req).gets = 0 := by
  unfold uploadHandler
  rw [hfile]
  rcases h with hm | hs
  · simp [hm]
  · by_cases hv : validMime req.mimetype
    · simp [hv, hs]
    · simp [hv]

/-- A 2 KiB GIF — rejected by multer's `fileFilter`. -/
def badMimeReq : UploadRequest :=
  ⟨true, "image/gif", 2048, "anim.gif", "", "", "", "", ""⟩

/-- An 11 MiB PNG — rejected by multer's `fileSize` limit. -/
def oversizeReq : UploadRequest :=
  ⟨true, "image/png", 11 * 1024 * 1024, "big.png", "", "", "", "", ""⟩

/-- Witness for C6: the 2 KiB GIF is rejected with no storage calls. -/
theorem validation_rejects_before_put_witness :
    (uploadHandler alwaysMissingEnv badMimeReq).response.status = 400 ∧
    (uploadHandler alwaysMissingEnv badMimeReq).puts = 0 ∧
    (uploadHandler alwaysMissingEnv badMimeReq).checks = 0 ∧
    (uploadHandler alwaysMissingEnv badMimeReq).gets = 0 :=
  validation_rejects_before_put alwaysMissingEnv badMimeReq rfl
    (Or.inl (by decide))

/-- The AWS SDK error shape for a missing bucket. -/
def noSuchBucketErr : JsError :=
  ⟨"NoSuchBucket", "The specified bucket does not exist", some 404⟩

/-- Claim C7: when the put fails, the handler resolves to the catch
block's mapping of that error and the poll loop is never entered: zero
existence checks and zero gets; `AccessDenied`, `NoSuchBucket` and
unrecognized errors map to the 403, 400 and 500 responses respectively. -/
theorem put_failure_skips_poll (env : Env) (req : UploadRequest) (e : JsError)
    (hput : env.putResult = Except.error e)
    (hfile : req.hasFile = true)
    (hmime : validMime req.mimetype = true)
    (hsize : req.size ≤ maxFileSize)
    (hcred : ((req.useCustomCredentials == "true") && missingCustomField req) = false) :
    (uploadHandler env req).response = mapErrorResponse e ∧
    (uploadHandler env req).puts = 1 ∧
    (uploadHandler env req).checks = 0 ∧
    (uploadHandler env req).gets = 0 ∧
    mapErrorResponse accessDeniedErr =
      ⟨403, some "Access denied. Check your AWS credentials and bucket permissions.", none⟩ ∧
    mapErrorResponse noSuchBucketErr =
      ⟨400, some "The specified S3 bucket does not exist.", none⟩ ∧
    mapErrorResponse internalErr =
      ⟨500, some "An error occurred while processing the image.", none⟩ := by
  have hns : ¬ (maxFileSize < req.size) := Nat.not_lt.mpr hsize
  unfold uploadHandler
  rw [hfile]
  simp only [hmime, hns, hcred, if_true, if_false, ite_false, ite_true]
  simp only [Bool.false_eq_true, if_false, ite_false]
  rw [hput]
  exact ⟨rfl, rfl, rfl, rfl, rfl, rfl, rfl⟩

/-- Witness for C7: the store denies the put of the default request. -/
theorem put_failure_skips_poll_witness :
    (uploadHandler putFailEnv defaultReq).response = mapErrorResponse accessDeniedErr ∧
    (uploadHandler putFailEnv defaultReq).puts = 1 ∧
    (uploadHandler putFailEnv defaultReq).checks = 0 ∧
    (uploadHandler putFailEnv defaultReq).gets = 0 ∧
    mapErrorResponse accessDeniedErr =
      ⟨403, some "Access denied. Check your AWS credentials and bucket permissions.", none⟩ ∧
    mapErrorResponse noSuchBucketErr =
      ⟨400, some "The specified S3 bucket does not exist.", none⟩ ∧
    mapErrorResponse internalErr =
      ⟨500, some "An error occurred while processing the image.", none⟩ :=
  put_failure_skips_poll putFailEnv defaultReq accessDeniedErr rfl rfl
    (by decide) (by decide) (by decide)

/-- Claim C8: the existence check answers `true` on a successful head,
answers `false` (not an error) exactly when the store's error is the
not-found shape (`name = "NotFound"` or HTTP status 404), and rethrows
every other store error; such an error terminates the poll loop at the
check that raised it — no retry, no get — as a storage failure. -/
theorem exists_false_iff_not_found (env : Env) (e : JsError) (n i : Nat)
    (hi : i < n)
    (hname : ¬ (e.name = "NotFound" ∨ e.httpStatusCode = some 404))
    (hfalse : ∀ j, j < i → checkResultExists (env.head j) = Except.ok false)
    (herr : env.head i = HeadResponse.errResp e) :
    checkResultExists HeadResponse.ok = Except.ok true ∧
    (∀ e2 : JsError, checkResultExists (HeadResponse.errResp e2) = Except.ok false ↔
      (e2.name = "NotFound" ∨ e2.httpStatusCode = some 404)) ∧
    checkResultExists (HeadResponse.errResp e) = Except.error e ∧
    pollForResult env n = ⟨i + 1, 0, i, Except.error e⟩ := by
  have hcheck : checkResultExists (HeadResponse.errResp e) = Except.error e := by
    simp only [checkResultExists]
    rw [if_neg hname]
  refine ⟨rfl, ?_, hcheck, ?_⟩
  · intro e2
    unfold checkResultExists
    by_cases h2 : e2.name = "NotFound" ∨ e2.httpStatusCode = some 404
    · simp [h2]
    · simp [h2]
  · have hrun := pollAux_check_error env e n 0 i hi
      (by intro j hj; simpa using hfalse j hj)
      (by rw [Nat.zero_add, herr]; exact hcheck)
    unfold pollForResult
    exact hrun

/-- An environment whose store answers the very first head request with
`AccessDenied`. -/
def headDeniedEnv : Env :=
  ⟨Except.ok (), fun _ => HeadResponse.errResp accessDeniedErr,
    fun _ => Except.ok "[]", fun _ => Except.ok (Json.jarr [])⟩

/-- Witness for C8: an `AccessDenied` head error at the first check. -/
theorem exists_false_iff_not_found_witness :
    checkResultExists HeadResponse.ok = Except.ok true ∧
    (∀ e2 : JsError, checkResultExists (HeadResponse.errResp e2) = Except.ok false ↔
      (e2.name = "NotFound" ∨ e2.httpStatusCode = some 404)) ∧
    checkResultExists (HeadResponse.errResp accessDeniedErr) =
      Except.error accessDeniedErr ∧
    pollForResult headDeniedEnv 15 = ⟨1, 0, 0, Except.error accessDeniedErr⟩ :=
  exists_false_iff_not_found headDeniedEnv accessDeniedErr 15 0 (by decide)
    (by decide) (fun j hj => absurd hj (Nat.not_lt_zero j)) rfl

/-- An environment whose store holds the result at the first check but
whose object body is not valid JSON. -/
def malformedEnv : Env :=
  ⟨Except.ok (), fun _ => HeadResponse.ok, fun _ => Except.ok "not json",
    fun _ => Except.error "Unexpected token o in JSON at position 1"⟩

/-- An environment whose store fails the get with a generic server-side
error. -/
def getFailEnv : Env :=
  ⟨Except.ok (), fun _ => HeadResponse.ok, fun _ => Except.error internalErr,
    fun _ => Except.ok Json.null⟩

/-- Counterexample to C9: on a malformed result payload the response is
the generic 500 — its message does not contain the parse reason — and it
is byte-for-byte the same response a generic storage failure produces, so
the surfaced outcome does not distinguish the two. -/
theorem parse_failure_response_cex :
    (uploadHandler malformedEnv defaultReq).response.status = 500 ∧
    (uploadHandler malformedEnv defaultReq).response.error =
      some "An error occurred while processing the image." ∧
    strIncludes "An error occurred while processing the image."
      "Unexpected token o in JSON at position 1" = false ∧
    (uploadHandler getFailEnv defaultReq).response.status = 500 ∧
    (uploadHandler getFailEnv defaultReq).response.error =
      (uploadHandler malformedEnv defaultReq).response.error := by
  exact ⟨by decide, by decide, by decide, by decide, by decide⟩

/-- Claim C9 as amended: a malformed result payload propagates from
`getResultContent` as a `SyntaxError` whose message is the parse reason —
at that level a deserialization failure is distinguishable from a storage
failure — but the catch block surfaces it as the generic 500 UnknownError
response, which carries no parse reason and is identical to the response
for an unrecognized storage error. -/
theorem parse_failure_surfaced (pj : String → Except String Json)
    (body reason : String) (hp : pj body = Except.error reason)
    (h1 : strIncludes reason "Timeout" = false)
    (h2 : strIncludes reason "Invalid file type" = false)
    (h3 : strIncludes reason "credential" = false) :
    getResultContent pj (Except.ok body) = Except.error (syntaxError reason) ∧
    (syntaxError reason).message = reason ∧
    (syntaxError reason).name = "SyntaxError" ∧
    mapErrorResponse (syntaxError reason) =
      ⟨500, some "An error occurred while processing the image.", none⟩ ∧
    mapErrorResponse (syntaxError reason) = mapErrorResponse internalErr := by
  have hmap : mapErrorResponse (syntaxError reason) =
      ⟨500, some "An error occurred while processing the image.", none⟩ := by
    unfold mapErrorResponse syntaxError
    simp only [strIncludes] at h1 h2 h3
    simp [strIncludes, h1, h2, h3]
  refine ⟨?_, rfl, rfl, hmap, ?_⟩
  · simp only [getResultContent]
    rw [hp]
  · rw [hmap]; rfl

/-- Witness for amended C9: the concrete `JSON.parse` failure reason for
the body `not json`. -/
theorem parse_failure_surfaced_witness :
    getResultContent malformedEnv.parse (Except.ok "not json") =
      Except.error (syntaxError "Unexpected token o in JSON at position 1") ∧
    (syntaxError "Unexpected token o in JSON at position 1").message =
      "Unexpected token o in JSON at position 1" ∧
    (syntaxError "Unexpected token o in JSON at position 1").name = "SyntaxError" ∧
    mapErrorResponse (syntaxError "Unexpected token o in JSON at position 1") =
      ⟨500, some "An error occurred while processing the image.", none⟩ ∧
    mapErrorResponse (syntaxError "Unexpected token o in JSON at position 1") =
      mapErrorResponse internalErr :=
  parse_failure_surfaced malformedEnv.parse "not json"
    "Unexpected token o in JSON at position 1" rfl (by decide) (by decide) (by decide)
